import Mathlib

/-!
Verification of the libdns Regery provider (provider.go).

The provider talks to a remote DNS record store over HTTP. We embed the
record model and the four operations (GetRecords, AppendRecords,
SetRecords, DeleteRecords) shallowly: the single HTTP exchange each
operation performs is abstracted as an oracle response passed in as an
argument, and the operation's Go control flow over that response is
translated directly.

A crucial point of the source: every failure path (transport error,
non-200 status, body read error, JSON decode error) calls log.Fatalf,
which terminates the hosting process; the `return nil, err` statements
that follow some of those calls are unreachable. We model this with a
dedicated `Outcome.fatal` constructor, distinct from `Outcome.err`
(an ordinary Go error return, which no path of this code produces).

Go's time.Duration is an int64 count of nanoseconds; we model TTL
durations as Int nanoseconds. `int(d.Seconds())` truncates toward zero,
modelled as Int.tdiv by 10^9 (float rounding at extreme magnitudes is
out of scope).
-/

namespace LibdnsRegery

/-- Wire record of the Regery API (struct RegeryDNSRecord in provider.go). -/
structure RegeryDNSRecord where
  address : String
  value : String
  type : String
  ttl : Int
  name : String
deriving DecidableEq

/-- Caller-facing record (libdns.Record): ttl is a time.Duration,
an integer count of nanoseconds. -/
structure LibdnsRecord where
  id : String
  ttl : Int
  type : String
  name : String
  value : String
deriving DecidableEq

/-- Nanoseconds in one second (time.Second). -/
def nsPerSecond : Int := 1000000000

/-- Models `int(d.Seconds())` on a time.Duration d: whole seconds,
truncated toward zero. -/
def durationSeconds (d : Int) : Int := Int.tdiv d nsPerSecond

/-- provider.go toRegeryDNSRecord: serialize a libdns.Record for the wire.
A TTL that truncates to 0 seconds becomes the provider default 3600;
Value is copied into both the address and the value wire fields. -/
def toRegeryDNSRecord (r : LibdnsRecord) : RegeryDNSRecord :=
  let ttlSeconds := durationSeconds r.ttl
  let ttlSeconds := if ttlSeconds = 0 then 3600 else ttlSeconds
  { address := r.value
    value := r.value
    type := r.type
    ttl := ttlSeconds
    name := r.name }

/-- The loop body of GetRecords mapping one wire record to a
libdns.Record: ID is the wire name, TTL is the wire ttl scaled to
nanoseconds, Value falls back to the address field when the value
field is empty. -/
def regeryToLibdns (record : RegeryDNSRecord) : LibdnsRecord :=
  let value := if record.value = "" then record.address else record.value
  { id := record.name
    ttl := record.ttl * nsPerSecond
    type := record.type
    name := record.name
    value := value }

/-- Result of running one provider operation. `fatal` stands for
log.Fatalf: the process terminates and the function never returns.
`err` is an ordinary Go error return. -/
inductive Outcome (α : Type) where
  | ok : α → Outcome α
  | err : String → Outcome α
  | fatal : String → Outcome α
deriving DecidableEq

/-- What reading and decoding the body of a 200 response yields. -/
inductive BodyOutcome where
  | readError : String → BodyOutcome
  | decodeError : String → BodyOutcome
  | decoded : List RegeryDNSRecord → BodyOutcome
deriving DecidableEq

/-- Oracle for the single GET exchange of GetRecords. -/
inductive HttpGetOutcome where
  | transportError : String → HttpGetOutcome
  | httpResponse : Nat → BodyOutcome → HttpGetOutcome
deriving DecidableEq

/-- Oracle for the single POST/DELETE exchange of AppendRecords and
DeleteRecords (their response bodies are only used in log output). -/
inductive HttpWriteOutcome where
  | transportError : String → HttpWriteOutcome
  | httpResponse : Nat → HttpWriteOutcome
deriving DecidableEq

/-- URL of the records endpoint for a zone (baseUrl + zone + records). -/
def recordsUrl (zone : String) : String :=
  "https://api.regery.com/v1/domains/" ++ zone ++ "/records"

/-- The HTTP request a write operation builds and sends: method, url,
and the wire-serialized record list in the body. -/
structure WriteRequest where
  method : String
  url : String
  body : List RegeryDNSRecord
deriving DecidableEq

/-- provider.go GetRecords, given the oracle response. Transport errors,
non-200 statuses, body read errors and JSON decode errors all reach
log.Fatalf, hence `fatal`; on 200 with a well-formed payload the wire
records are mapped to libdns records in order. -/
def getRecords (resp : HttpGetOutcome) : Outcome (List LibdnsRecord) :=
  match resp with
  | .transportError _ => .fatal "Failed to make request"
  | .httpResponse status body =>
    if status ≠ 200 then .fatal "Received non-200 response"
    else
      match body with
      | .readError _ => .fatal "Failed to read response body"
      | .decodeError _ => .fatal "Failed to parse JSON"
      | .decoded result => .ok (result.map regeryToLibdns)

/-- provider.go AppendRecords: serializes the input with
toRegeryDNSRecord into a POST request, then fails fatally on a transport
error or a non-200 status, and on 200 returns the input slice unchanged.
The built request is returned alongside so the wire payload can be
inspected. -/
def appendRecords (resp : HttpWriteOutcome) (zone : String)
    (records : List LibdnsRecord) : Outcome (List LibdnsRecord) × WriteRequest :=
  let req : WriteRequest :=
    { method := "POST", url := recordsUrl zone, body := records.map toRegeryDNSRecord }
  match resp with
  | .transportError _ => (.fatal "Failed to make request", req)
  | .httpResponse status =>
    if status ≠ 200 then (.fatal "Received non-200 response", req)
    else (.ok records, req)

/-- provider.go DeleteRecords: identical to AppendRecords except for the
HTTP method. -/
def deleteRecords (resp : HttpWriteOutcome) (zone : String)
    (records : List LibdnsRecord) : Outcome (List LibdnsRecord) × WriteRequest :=
  let req : WriteRequest :=
    { method := "DELETE", url := recordsUrl zone, body := records.map toRegeryDNSRecord }
  match resp with
  | .transportError _ => (.fatal "Failed to make request", req)
  | .httpResponse status =>
    if status ≠ 200 then (.fatal "Received non-200 response", req)
    else (.ok records, req)

/-- The inner loop of SetRecords for one existing record r: one copy of
r per desired record whose Name equals r.Name, in desired order. -/
def matchesFor (r : LibdnsRecord) : List LibdnsRecord → List LibdnsRecord
  | [] => []
  | newRecord :: rest =>
    (if newRecord.name = r.name then [r] else []) ++ matchesFor r rest

/-- The nested loops of SetRecords computing toDelete from the existing
records (outer loop) and the desired records (inner loop). -/
def computeToDelete : List LibdnsRecord → List LibdnsRecord → List LibdnsRecord
  | [], _ => []
  | r :: rest, desired => matchesFor r desired ++ computeToDelete rest desired

/-- One call SetRecords makes against the store, with its arguments. -/
inductive StoreCall where
  | list : String → StoreCall
  | append : String → List LibdnsRecord → StoreCall
  | delete : String → List LibdnsRecord → StoreCall
deriving DecidableEq

/-- Oracle responses for the (at most) three HTTP exchanges one
SetRecords invocation can perform. -/
structure Env where
  getResp : HttpGetOutcome
  appendResp : HttpWriteOutcome
  deleteResp : HttpWriteOutcome
deriving DecidableEq

/-- provider.go SetRecords: GetRecords for the pre-append snapshot, the
nested loops computing toDelete from that snapshot, AppendRecords with
the whole desired list, then DeleteRecords with toDelete whose error
return would only be logged. Alongside the outcome it yields the trace
of store calls actually performed, in order. A fatal outcome of a callee
(log.Fatalf terminating the process) ends the trace at that call. -/
def setRecords (env : Env) (zone : String) (records : List LibdnsRecord) :
    Outcome (List LibdnsRecord) × List StoreCall :=
  match getRecords env.getResp with
  | .fatal m => (.fatal m, [StoreCall.list zone])
  | .err m => (.err m, [StoreCall.list zone])
  | .ok existingRecords =>
    match (appendRecords env.appendResp zone records).1 with
    | .fatal m => (.fatal m, [StoreCall.list zone, StoreCall.append zone records])
    | .err m => (.err m, [StoreCall.list zone, StoreCall.append zone records])
    | .ok appendedRecords =>
      match (deleteRecords env.deleteResp zone (computeToDelete existingRecords records)).1 with
      | .fatal m =>
        (.fatal m,
         [StoreCall.list zone, StoreCall.append zone records,
          StoreCall.delete zone (computeToDelete existingRecords records)])
      | .err _ =>
        (.ok appendedRecords,
         [StoreCall.list zone, StoreCall.append zone records,
          StoreCall.delete zone (computeToDelete existingRecords records)])
      | .ok _ =>
        (.ok appendedRecords,
         [StoreCall.list zone, StoreCall.append zone records,
          StoreCall.delete zone (computeToDelete existingRecords records)])

/-- Occurrence count of a record value in a list. -/
def occurrences (e : LibdnsRecord) : List LibdnsRecord → Nat
  | [] => 0
  | x :: rest => (if x = e then 1 else 0) + occurrences e rest

/-- Number of records in a list whose Name equals nm. -/
def matchCount (nm : String) : List LibdnsRecord → Nat
  | [] => 0
  | d :: rest => (if d.name = nm then 1 else 0) + matchCount nm rest

/-- Sample wire record, as the scenario test of the spec lists it. -/
def sampleWire : RegeryDNSRecord :=
  { address := "10.0.0.1", value := "", type := "A", ttl := 300, name := "www" }

/-- Sample desired record (TTL 600 seconds as a duration). -/
def sampleDesired : LibdnsRecord :=
  { id := "", ttl := 600 * nsPerSecond, type := "A", name := "www", value := "10.0.0.2" }

/-- Oracle where all three exchanges succeed. -/
def sampleEnv : Env :=
  { getResp := .httpResponse 200 (.decoded [sampleWire])
    appendResp := .httpResponse 200
    deleteResp := .httpResponse 200 }

/-- Oracle where the GET of the snapshot returns HTTP 500. -/
def envListFail : Env :=
  { getResp := .httpResponse 500 (.decoded [])
    appendResp := .httpResponse 200
    deleteResp := .httpResponse 200 }

/-- Oracle where the append POST returns HTTP 500. -/
def envAppendFail : Env :=
  { getResp := .httpResponse 200 (.decoded [])
    appendResp := .httpResponse 500
    deleteResp := .httpResponse 200 }

/-- Oracle where only the DELETE exchange fails (HTTP 500). -/
def envDeleteFail : Env :=
  { getResp := .httpResponse 200 (.decoded [sampleWire])
    appendResp := .httpResponse 200
    deleteResp := .httpResponse 500 }

/-- A record is among the matches collected for r exactly when it is r
itself and some desired record shares r's name. -/
theorem mem_matchesFor (e r : LibdnsRecord) (desired : List LibdnsRecord) :
    e ∈ matchesFor r desired ↔ e = r ∧ ∃ d ∈ desired, d.name = r.name := by
  induction desired with
  | nil => simp [matchesFor]
  | cons d rest ih =>
    simp only [matchesFor, List.mem_append, ih, List.mem_cons]
    by_cases h : d.name = r.name <;> (simp [h]; try tauto)

/-- Occurrence counts add up over list concatenation. -/
theorem occurrences_append (e : LibdnsRecord) (l1 l2 : List LibdnsRecord) :
    occurrences e (l1 ++ l2) = occurrences e l1 + occurrences e l2 := by
  induction l1 with
  | nil => simp [occurrences]
  | cons x rest ih => simp [occurrences, ih, Nat.add_assoc]

/-- The matches collected for r hold e as often as desired records share
r's name, when e is r, and never otherwise. -/
theorem occurrences_matchesFor (e r : LibdnsRecord) (desired : List LibdnsRecord) :
    occurrences e (matchesFor r desired) =
      if r = e then matchCount r.name desired else 0 := by
  induction desired with
  | nil => simp [matchesFor, occurrences, matchCount]
  | cons d rest ih =>
    simp only [matchesFor, occurrences_append, ih, matchCount]
    by_cases hre : r = e
    · subst hre
      by_cases hd : d.name = r.name <;> simp [occurrences, hd, Nat.add_assoc]
    · by_cases hd : d.name = r.name <;> simp [occurrences, hd, hre]

/-- C3: a record is in toDelete exactly when it is one of the existing
records and some desired record has the same Name; Type, Value and TTL
never enter the match, so two existing records sharing one desired name
are both included. -/
theorem toDelete_membership (existing desired : List LibdnsRecord) (e : LibdnsRecord) :
    e ∈ computeToDelete existing desired ↔
      e ∈ existing ∧ ∃ d ∈ desired, d.name = e.name := by
  induction existing with
  | nil => simp [computeToDelete]
  | cons r rest ih =>
    simp only [computeToDelete, List.mem_append, ih, mem_matchesFor, List.mem_cons]
    constructor
    · rintro (⟨he, d, hd, hn⟩ | ⟨he, d, hd, hn⟩)
      · exact ⟨Or.inl he, d, hd, he ▸ hn⟩
      · exact ⟨Or.inr he, d, hd, hn⟩
    · rintro ⟨he | he, d, hd, hn⟩
      · exact Or.inl ⟨he, d, hd, he ▸ hn⟩
      · exact Or.inr ⟨he, d, hd, hn⟩

/-- C10: an existing record enters toDelete once per desired record
sharing its Name, so its multiplicity in the slice handed to
DeleteRecords is its multiplicity among the existing records times the
number of desired records with that Name. -/
theorem toDelete_multiplicity (existing desired : List LibdnsRecord) (e : LibdnsRecord) :
    occurrences e (computeToDelete existing desired) =
      occurrences e existing * matchCount e.name desired := by
  induction existing with
  | nil => simp [computeToDelete, occurrences]
  | cons r rest ih =>
    simp only [computeToDelete, occurrences_append, occurrences_matchesFor, ih, occurrences]
    by_cases hre : r = e
    · subst hre
      simp [Nat.add_mul]
    · simp [hre]

/-- C8: every record GetRecords returns has ID equal to Name (Name is
the identity surrogate), and its TTL is the wire ttl integer scaled to
that many seconds: a 200 response decoding to `recs` yields exactly
`recs.map regeryToLibdns`, and for every wire record w the mapped record
has id = w.name, name = w.name and ttl = w.ttl seconds (as nanoseconds). -/
theorem getRecords_field_mapping (recs : List RegeryDNSRecord) (w : RegeryDNSRecord) :
    getRecords (.httpResponse 200 (.decoded recs)) = .ok (recs.map regeryToLibdns) ∧
    (regeryToLibdns w).id = w.name ∧
    (regeryToLibdns w).name = w.name ∧
    (regeryToLibdns w).ttl = w.ttl * nsPerSecond :=
  ⟨rfl, rfl, rfl, rfl⟩

/-- C9: on the read path, Value is the wire value field when that is
non-empty and falls back to the wire address field when it is empty; on
the write path, the record's Value is copied into both the address and
the value wire fields. -/
theorem value_field_mapping (w : RegeryDNSRecord) (r : LibdnsRecord) :
    (w.value = "" → (regeryToLibdns w).value = w.address) ∧
    (w.value ≠ "" → (regeryToLibdns w).value = w.value) ∧
    (toRegeryDNSRecord r).address = r.value ∧
    (toRegeryDNSRecord r).value = r.value := by
  refine ⟨?_, ?_, rfl, rfl⟩ <;> intro h <;> simp [regeryToLibdns, h]

/-- C9 witness: both branches of the read-path fallback at concrete wire
records. -/
theorem value_field_mapping_witness :
    (regeryToLibdns sampleWire).value = sampleWire.address ∧
    (regeryToLibdns { sampleWire with value := "v" }).value = "v" :=
  ⟨(value_field_mapping sampleWire sampleDesired).1 rfl,
   (value_field_mapping { sampleWire with value := "v" } sampleDesired).2.1 (by decide)⟩

/-- C4 (code bug evidence): on a transport error, a non-200 status, or a
malformed payload, the operations do not return an error to the caller:
they reach log.Fatalf, terminating the hosting process (the `fatal`
outcome), for GetRecords, AppendRecords and DeleteRecords alike. -/
theorem store_ops_fatal_on_failure :
    getRecords (.transportError "connection refused") = .fatal "Failed to make request" ∧
    getRecords (.httpResponse 500 (.decoded [])) = .fatal "Received non-200 response" ∧
    getRecords (.httpResponse 200 (.decodeError "not json")) = .fatal "Failed to parse JSON" ∧
    (appendRecords (.httpResponse 500) "example.com" [sampleDesired]).1 =
      .fatal "Received non-200 response" ∧
    (deleteRecords (.transportError "connection reset") "example.com" [sampleDesired]).1 =
      .fatal "Failed to make request" :=
  ⟨rfl, rfl, rfl, rfl, rfl⟩

/-- C2 (code bug evidence): when the DELETE exchange inside SetRecords
fails (here HTTP 500), DeleteRecords reaches log.Fatalf and the process
terminates: SetRecords does not return the AppendRecords result with a
nil error, and the error-logging branch in SetRecords is unreachable. -/
theorem setRecords_delete_failure_aborts :
    (setRecords envDeleteFail "example.com" [sampleDesired]).1 =
      Outcome.fatal "Received non-200 response" := by
  decide

/-- C6 (code bug evidence): a snapshot (GET) failure stops SetRecords
before any append or delete exchange, and an append failure stops it
before the delete exchange — but in both cases the process terminates
via log.Fatalf instead of SetRecords returning the error. -/
theorem setRecords_failfast_fatal :
    setRecords envListFail "example.com" [sampleDesired] =
      (Outcome.fatal "Received non-200 response", [StoreCall.list "example.com"]) ∧
    setRecords envAppendFail "example.com" [sampleDesired] =
      (Outcome.fatal "Received non-200 response",
       [StoreCall.list "example.com", StoreCall.append "example.com" [sampleDesired]]) := by
  constructor <;> decide

/-- C1: whenever the snapshot GET succeeds (200, well-formed payload)
and the append POST succeeds (200), SetRecords performs exactly the
store calls list, append with the entire desired list, delete with the
collisions computed from the pre-append snapshot — in that order and
nothing else, whatever the delete exchange then does. -/
theorem setRecords_sequence (env : Env) (zone : String) (records : List LibdnsRecord)
    (wireRecs : List RegeryDNSRecord)
    (hget : env.getResp = .httpResponse 200 (.decoded wireRecs))
    (happ : env.appendResp = .httpResponse 200) :
    (setRecords env zone records).2 =
      [StoreCall.list zone, StoreCall.append zone records,
       StoreCall.delete zone (computeToDelete (wireRecs.map regeryToLibdns) records)] := by
  simp only [setRecords, getRecords, appendRecords, hget, happ]
  cases hdel : (deleteRecords env.deleteResp zone
      (computeToDelete (wireRecs.map regeryToLibdns) records)).1 <;>
    simp [hdel]

/-- C1 witness: the fixed call sequence at the spec's scenario inputs. -/
theorem setRecords_sequence_witness :
    (setRecords sampleEnv "example.com" [sampleDesired]).2 =
      [StoreCall.list "example.com", StoreCall.append "example.com" [sampleDesired],
       StoreCall.delete "example.com"
         (computeToDelete ([sampleWire].map regeryToLibdns) [sampleDesired])] :=
  setRecords_sequence sampleEnv "example.com" [sampleDesired] [sampleWire] rfl rfl

/-- C5: AppendRecords and DeleteRecords serialize their input through
toRegeryDNSRecord into the request body; a TTL truncating to 0 seconds
is sent as the provider default 3600, a TTL truncating to a nonzero
count of seconds is sent as that count, and the wire ttl is never the
literal 0. -/
theorem ttl_default_wire (resp : HttpWriteOutcome) (zone : String)
    (records : List LibdnsRecord) (r : LibdnsRecord) :
    (appendRecords resp zone records).2.body = records.map toRegeryDNSRecord ∧
    (deleteRecords resp zone records).2.body = records.map toRegeryDNSRecord ∧
    (durationSeconds r.ttl = 0 → (toRegeryDNSRecord r).ttl = 3600) ∧
    (durationSeconds r.ttl ≠ 0 → (toRegeryDNSRecord r).ttl = durationSeconds r.ttl) ∧
    (toRegeryDNSRecord r).ttl ≠ 0 := by
  refine ⟨?_, ?_, ?_, ?_, ?_⟩
  · cases resp with
    | transportError m => rfl
    | httpResponse s => by_cases h : s ≠ 200 <;> simp [appendRecords, h]
  · cases resp with
    | transportError m => rfl
    | httpResponse s => by_cases h : s ≠ 200 <;> simp [deleteRecords, h]
  · intro h; simp [toRegeryDNSRecord, h]
  · intro h; simp [toRegeryDNSRecord, h]
  · by_cases h : durationSeconds r.ttl = 0 <;> simp [toRegeryDNSRecord, h]

/-- C5 witness: a zero TTL is sent as 3600 and a 600-second TTL as 600,
at concrete records. -/
theorem ttl_default_wire_witness :
    (toRegeryDNSRecord { sampleDesired with ttl := 0 }).ttl = 3600 ∧
    (toRegeryDNSRecord sampleDesired).ttl = 600 :=
  ⟨(ttl_default_wire (.httpResponse 200) "example.com" []
      { sampleDesired with ttl := 0 }).2.2.1 (by decide),
   ((ttl_default_wire (.httpResponse 200) "example.com" [] sampleDesired).2.2.2.1
      (by decide)).trans (by decide)⟩

/-- C7: a successful AppendRecords or DeleteRecords returns exactly its
input slice (an echo, not a re-fetch), and a successful SetRecords
returns exactly the slice AppendRecords returned. -/
theorem append_delete_echo (resp1 resp2 : HttpWriteOutcome) (env : Env) (zone : String)
    (records recs out out2 res : List LibdnsRecord)
    (h1 : (appendRecords resp1 zone records).1 = .ok out)
    (h2 : (deleteRecords resp2 zone recs).1 = .ok out2)
    (h3 : (setRecords env zone records).1 = .ok res) :
    out = records ∧ out2 = recs ∧
      (appendRecords env.appendResp zone records).1 = .ok res := by
  refine ⟨?_, ?_, ?_⟩
  · cases resp1 with
    | transportError m => simp [appendRecords] at h1
    | httpResponse s =>
      by_cases h : s ≠ 200 <;> simp [appendRecords, h] at h1 <;> exact h1.symm
  · cases resp2 with
    | transportError m => simp [deleteRecords] at h2
    | httpResponse s =>
      by_cases h : s ≠ 200 <;> simp [deleteRecords, h] at h2 <;> exact h2.symm
  · unfold setRecords at h3
    split at h3
    · simp at h3
    · simp at h3
    · split at h3
      · simp at h3
      · simp at h3
      · next appendedRecords ha2 =>
        split at h3 <;> simp at h3 <;> rw [ha2, h3]

/-- C7 witness: at the spec's scenario inputs, the append echo, delete
echo and SetRecords result all equal the desired list. -/
theorem append_delete_echo_witness :
    ([sampleDesired] : List LibdnsRecord) = [sampleDesired] ∧
    ([sampleDesired] : List LibdnsRecord) = [sampleDesired] ∧
    (appendRecords sampleEnv.appendResp "example.com" [sampleDesired]).1 =
      .ok [sampleDesired] :=
  append_delete_echo (.httpResponse 200) (.httpResponse 200) sampleEnv "example.com"
    [sampleDesired] [sampleDesired] [sampleDesired] [sampleDesired] [sampleDesired]
    (by decide) (by decide) (by decide)

end LibdnsRegery
